import Mathlib

/-!
# Adafruit SleepyDog, AVR watchdog driver (`utility/WatchdogAVR.cpp`)

A shallow embedding of the AVR watchdog driver.  The C++ class `WatchdogAVR`
owns one field, `_wdto`, and drives the watchdog peripheral through avr-libc
primitives and direct register writes.

* C `int` values are embedded as `Int`.  The driver only compares and copies
  them, so no overflow can occur and the unbounded type covers the 16-bit
  range of the target.
* The two out-parameters of `_setPeriod` become the fields of `Period`.
* The hardware is a record of the registers the driver touches, each a plain
  8-bit cell, plus the global interrupt flag.  Every hardware primitive is a
  constructor of `HwOp`; `HwOp.exec` gives its effect on the registers.
* `WatchdogAVR.trace` is a ghost history: the hardware primitives issued so
  far, oldest first.  It is not part of the driver state (`WatchdogAVR.state`).
-/

namespace AVR

/-! ## Constants of avr-libc (`avr/wdt.h`, `avr/io.h`) -/

def WDTO_15MS : Int := 0
def WDTO_30MS : Int := 1
def WDTO_60MS : Int := 2
def WDTO_120MS : Int := 3
def WDTO_250MS : Int := 4
def WDTO_500MS : Int := 5
def WDTO_1S : Int := 6
def WDTO_2S : Int := 7
def WDTO_4S : Int := 8
def WDTO_8S : Int := 9

/-- Bit positions in the watchdog control register (`WDTCSR`, or `WDTCR` on the ATtiny85). -/
def WDP0 : Nat := 0
def WDP1 : Nat := 1
def WDP2 : Nat := 2
def WDE : Nat := 3
def WDCE : Nat := 4
def WDP3 : Nat := 5
def WDIE : Nat := 6

/-- Bit position of the watchdog reset flag in `MCUSR`. -/
def WDRF : Nat := 3

/-- Conversion of an `int` to `uint8_t`: the low byte of the value in twos-complement
representation.  The masks used below only look at this byte. -/
def toUint8 (x : Int) : Nat := (x % 256).toNat

/-- The registers touched by the driver and the global interrupt flag of `SREG`. -/
structure Hw where
  WDTCR : Nat
  MCUSR : Nat
  I : Bool
deriving DecidableEq, Repr

/-- The hardware primitives used by `WatchdogAVR.cpp`, one per statement. -/
inductive HwOp where
  | cli
  | sei
  | MCUSR_and (mask : Nat)
  | WDTCR_or (bits : Nat)
  | WDTCR_assign (value : Nat)
  | wdt_enable (value : Int)
  | wdt_reset
  | wdt_disable
  | set_sleep_mode_PWR_DOWN
  | sleep_mode
  | sleep_disable
deriving DecidableEq, Repr

/-- Effect of one primitive on the registers.  `wdt_enable` and `wdt_disable`
follow avr-libc: `wdt_enable(value)` leaves `WDE` and the prescaler bits of
`value` in the control register and restores `SREG`; `wdt_disable()` leaves the
control register cleared.  `wdt_reset` restarts the countdown and the sleep
primitives act on the power-management registers; neither touches the
registers modelled here. -/
def HwOp.exec : HwOp → Hw → Hw
  | .cli, hw => { hw with I := false }
  | .sei, hw => { hw with I := true }
  | .MCUSR_and mask, hw => { hw with MCUSR := hw.MCUSR &&& mask }
  | .WDTCR_or bits, hw => { hw with WDTCR := (hw.WDTCR ||| bits) % 256 }
  | .WDTCR_assign value, hw => { hw with WDTCR := value % 256 }
  | .wdt_enable value, hw =>
    let v := toUint8 value
    { hw with WDTCR := (if v &&& 0x08 ≠ 0 then 1 <<< WDP3 else 0) ||| (1 <<< WDE) ||| (v &&& 0x07) }
  | .wdt_reset, hw => hw
  | .wdt_disable, hw => { hw with WDTCR := 0 }
  | .set_sleep_mode_PWR_DOWN, hw => hw
  | .sleep_mode, hw => hw
  | .sleep_disable, hw => hw

/-- Operating modes of the watchdog, selected by the `WDE` and `WDIE` bits. -/
inductive Mode where
  | stopped
  | interrupt
  | systemReset
  | interruptAndSystemReset
deriving DecidableEq, Repr

/-- Mode the control register selects: `WDE` arms the reset, `WDIE` the interrupt. -/
def Hw.mode (hw : Hw) : Mode :=
  if hw.WDTCR.testBit WDE then
    if hw.WDTCR.testBit WDIE then .interruptAndSystemReset else .systemReset
  else
    if hw.WDTCR.testBit WDIE then .interrupt else .stopped

/-- Timeout selector held in the prescaler bits `WDP3 WDP2 WDP1 WDP0`. -/
def Hw.prescaler (hw : Hw) : Nat :=
  (if hw.WDTCR.testBit WDP3 then 8 else 0) ||| (hw.WDTCR &&& 0x07)

/-- Compile-time variant: `__AVR_ATtiny85__` defined or not. -/
inductive Platform where
  | generic
  | attiny85
deriving DecidableEq, Repr

/-- Prescaler field of a timeout selector as the control register lays it out:
bits 0, 1, 2 of the selector at `WDP0`, `WDP1`, `WDP2` and bit 3 at `WDP3`. -/
def prescalerBits (selector : Nat) : Nat :=
  (if selector.testBit 3 then 1 <<< WDP3 else 0) |||
  (if selector.testBit 2 then 1 <<< WDP2 else 0) |||
  (if selector.testBit 1 then 1 <<< WDP1 else 0) |||
  (if selector.testBit 0 then 1 <<< WDP0 else 0)

/-- Whether a primitive is a direct write of the driver to `MCUSR` or to the
watchdog control register. -/
def HwOp.isRegisterWrite : HwOp → Bool
  | .MCUSR_and _ => true
  | .WDTCR_or _ => true
  | .WDTCR_assign _ => true
  | .cli => false
  | .sei => false
  | .wdt_enable _ => false
  | .wdt_reset => false
  | .wdt_disable => false
  | .set_sleep_mode_PWR_DOWN => false
  | .sleep_mode => false
  | .sleep_disable => false

/-- Whether every direct register write in a sequence of primitives, run from
the given registers, happens while the global interrupt flag is cleared. -/
def writesMasked : List HwOp → Hw → Bool
  | [], _ => true
  | op :: ops, hw => (!op.isRegisterWrite || !hw.I) && writesMasked ops (op.exec hw)

end AVR

open AVR

/-- Result of `_setPeriod`: its out-parameters `wdto` and `actualMS`. -/
structure Period where
  wdto : Int
  actualMS : Int
deriving DecidableEq, Repr

/-- The driver object: the field `_wdto`, the hardware it drives, and the
ghost history of hardware primitives issued. -/
structure WatchdogAVR where
  _wdto : Int
  hw : Hw
  trace : List HwOp
deriving DecidableEq, Repr

namespace WatchdogAVR

/-- Driver state: `_wdto` together with the peripheral registers. -/
def state (self : WatchdogAVR) : Int × Hw := (self._wdto, self.hw)

/-- Issue one hardware primitive: apply it to the registers and log it. -/
def issue (op : HwOp) (self : WatchdogAVR) : WatchdogAVR :=
  { self with hw := op.exec self.hw, trace := self.trace ++ [op] }

/-- `WatchdogAVR::_setPeriod`. -/
def _setPeriod (maxMS : Int) : Period :=
  if maxMS ≥ 8000 ∨ maxMS = 0 then { wdto := WDTO_8S, actualMS := 8000 }
  else if maxMS ≥ 4000 then { wdto := WDTO_4S, actualMS := 4000 }
  else if maxMS ≥ 2000 then { wdto := WDTO_2S, actualMS := 2000 }
  else if maxMS ≥ 1000 then { wdto := WDTO_1S, actualMS := 1000 }
  else if maxMS ≥ 500 then { wdto := WDTO_500MS, actualMS := 500 }
  else if maxMS ≥ 250 then { wdto := WDTO_250MS, actualMS := 250 }
  else if maxMS ≥ 120 then { wdto := WDTO_120MS, actualMS := 120 }
  else if maxMS ≥ 60 then { wdto := WDTO_60MS, actualMS := 60 }
  else if maxMS ≥ 30 then { wdto := WDTO_30MS, actualMS := 30 }
  else { wdto := WDTO_15MS, actualMS := 15 }

/-- `WatchdogAVR::enable`. -/
def enable (maxPeriodMS : Int) (self : WatchdogAVR) : Int × WatchdogAVR :=
  let p := _setPeriod maxPeriodMS
  let self := { self with _wdto := p.wdto }
  let self := self.issue (.wdt_enable self._wdto)
  (p.actualMS, self)

/-- `WatchdogAVR::reset`. -/
def reset (self : WatchdogAVR) : WatchdogAVR :=
  self.issue .wdt_reset

/-- `WatchdogAVR::disable`. -/
def disable (self : WatchdogAVR) : WatchdogAVR :=
  let self := self.issue .wdt_disable
  { self with _wdto := -1 }

/-- `WatchdogAVR::setup`. -/
def setup (wdps : Nat) (self : WatchdogAVR) : WatchdogAVR :=
  let self := self.issue .cli
  let self := self.issue (.MCUSR_and (0xFF ^^^ (1 <<< WDRF)))
  let self := self.issue (.WDTCR_or ((1 <<< WDCE) ||| (1 <<< WDE)))
  let self := self.issue (.WDTCR_assign wdps)
  let self := self.issue (.WDTCR_or (1 <<< WDIE))
  self.issue .sei

/-- `WatchdogAVR::convertWDTOtoWDPS`, both compile-time variants. -/
def convertWDTOtoWDPS (platform : Platform) (sleepWDTO : Int) : Nat :=
  match platform with
  | .attiny85 =>
    let ii := toUint8 sleepWDTO
    let bb := ii &&& 7
    let bb := if ii > 7 then bb ||| (1 <<< 5) else bb
    let bb := bb ||| (1 <<< WDCE)
    bb
  | .generic =>
    let w := toUint8 sleepWDTO
    (((if w &&& 0x08 ≠ 0 then 1 else 0) <<< WDP3) |||
     ((if w &&& 0x04 ≠ 0 then 1 else 0) <<< WDP2) |||
     ((if w &&& 0x02 ≠ 0 then 1 else 0) <<< WDP1) |||
     ((if w &&& 0x01 ≠ 0 then 1 else 0) <<< WDP0)) % 256

/-- `WatchdogAVR::sleepPreset`. -/
def sleepPreset (self : WatchdogAVR) : WatchdogAVR :=
  let self := self.issue .set_sleep_mode_PWR_DOWN
  let self := self.issue .sleep_mode
  self.issue .sleep_disable

/-- `WatchdogAVR::setupPreset`; the argument is a `uint8_t`. -/
def setupPreset (platform : Platform) (wdto : Nat) (self : WatchdogAVR) : WatchdogAVR :=
  let wdps := convertWDTOtoWDPS platform (wdto % 256 : Nat)
  self.setup wdps

/-- `WatchdogAVR::sleep`. -/
def sleep (platform : Platform) (maxPeriodMS : Int) (self : WatchdogAVR) : Int × WatchdogAVR :=
  let p := _setPeriod maxPeriodMS
  let wdps := convertWDTOtoWDPS platform p.wdto
  let self := self.setup wdps
  let self := self.sleepPreset
  let self := if self._wdto ≠ -1 then self.issue (.wdt_enable self._wdto) else self
  (p.actualMS, self)

/-- Modelled from the spec: the constructor lives in `WatchdogAVR.h`, which is
not among the sources.  WatchdogState is initialized to disabled at
construction (the sentinel `-1` tested by `sleep`), and all state is reset at
power-on: the peripheral starts stopped, with no primitive issued yet.  The
reset flags in `MCUSR` and the interrupt flag are whatever start-up left. -/
def init (mcusr : Nat) (i : Bool) : WatchdogAVR :=
  { _wdto := -1, hw := { WDTCR := 0, MCUSR := mcusr % 256, I := i }, trace := [] }

/-- The ladder of the spec: each timeout selector paired with its duration in
milliseconds, ascending. -/
def ladder : List Period :=
  [⟨WDTO_15MS, 15⟩, ⟨WDTO_30MS, 30⟩, ⟨WDTO_60MS, 60⟩, ⟨WDTO_120MS, 120⟩, ⟨WDTO_250MS, 250⟩,
   ⟨WDTO_500MS, 500⟩, ⟨WDTO_1S, 1000⟩, ⟨WDTO_2S, 2000⟩, ⟨WDTO_4S, 4000⟩, ⟨WDTO_8S, 8000⟩]

/-- The ten ladder durations in milliseconds. -/
def ladderMS : List Int := ladder.map Period.actualMS

/-- One call of the public interface. -/
inductive Call where
  | enable (maxPeriodMS : Int)
  | reset
  | disable
  | sleep (maxPeriodMS : Int)
deriving DecidableEq, Repr

/-- Perform one public call, discarding the return value. -/
def call (platform : Platform) : Call → WatchdogAVR → WatchdogAVR
  | .enable maxPeriodMS, self => (self.enable maxPeriodMS).2
  | .reset, self => self.reset
  | .disable, self => self.disable
  | .sleep maxPeriodMS, self => (self.sleep platform maxPeriodMS).2

/-- Perform a sequence of public calls, first call first. -/
def run (platform : Platform) (calls : List Call) (self : WatchdogAVR) : WatchdogAVR :=
  calls.foldl (fun s c => call platform c s) self

/-- Whether a call is `enable` or `disable`, the two calls that assign `_wdto`. -/
def Call.isArming : Call → Bool
  | .enable _ => true
  | .disable => true
  | .reset => false
  | .sleep _ => false

/-- WatchdogState as the spec describes it after a history of calls: the
selector chosen by the most recent `enable` call if no `disable` call came
after it, and the disabled sentinel otherwise. -/
def expectedWdto (calls : List Call) : Int :=
  match calls.reverse.find? Call.isArming with
  | some (.enable maxPeriodMS) => (_setPeriod maxPeriodMS).wdto
  | _ => -1

/-- Whether a history leaves the peripheral untouched since it was last
disarmed: no `enable` or `sleep` call follows the most recent `disable` call, or
occurs at all when `disable` was never called. -/
def disarmedHistory (calls : List Call) : Bool :=
  calls.foldl (fun quiet c =>
    match c with
    | .enable _ => false
    | .reset => quiet
    | .disable => true
    | .sleep _ => false) true

end WatchdogAVR

open WatchdogAVR

/-! ## The quantizer `_setPeriod` -/

/-- The result of `_setPeriod` is always one of the ten ladder entries. -/
theorem setPeriod_mem_ladder (r : Int) : _setPeriod r ∈ ladder := by
  unfold _setPeriod
  split_ifs <;> simp [ladder]

/-- Case analysis of `_setPeriod`: the branch taken and the value it yields. -/
theorem setPeriod_cases (r : Int) :
    ((8000 ≤ r ∨ r = 0) ∧ _setPeriod r = ⟨WDTO_8S, 8000⟩) ∨
    ((4000 ≤ r ∧ r < 8000) ∧ _setPeriod r = ⟨WDTO_4S, 4000⟩) ∨
    ((2000 ≤ r ∧ r < 4000) ∧ _setPeriod r = ⟨WDTO_2S, 2000⟩) ∨
    ((1000 ≤ r ∧ r < 2000) ∧ _setPeriod r = ⟨WDTO_1S, 1000⟩) ∨
    ((500 ≤ r ∧ r < 1000) ∧ _setPeriod r = ⟨WDTO_500MS, 500⟩) ∨
    ((250 ≤ r ∧ r < 500) ∧ _setPeriod r = ⟨WDTO_250MS, 250⟩) ∨
    ((120 ≤ r ∧ r < 250) ∧ _setPeriod r = ⟨WDTO_120MS, 120⟩) ∨
    ((60 ≤ r ∧ r < 120) ∧ _setPeriod r = ⟨WDTO_60MS, 60⟩) ∨
    ((30 ≤ r ∧ r < 60) ∧ _setPeriod r = ⟨WDTO_30MS, 30⟩) ∨
    ((r < 30 ∧ r ≠ 0) ∧ _setPeriod r = ⟨WDTO_15MS, 15⟩) := by
  unfold _setPeriod
  split_ifs with h1 h2 h3 h4 h5 h6 h7 h8 h9
  · exact Or.inl ⟨h1, rfl⟩
  · exact Or.inr (Or.inl ⟨by omega, rfl⟩)
  · exact Or.inr (Or.inr (Or.inl ⟨by omega, rfl⟩))
  · exact Or.inr (Or.inr (Or.inr (Or.inl ⟨by omega, rfl⟩)))
  · exact Or.inr (Or.inr (Or.inr (Or.inr (Or.inl ⟨by omega, rfl⟩))))
  · exact Or.inr (Or.inr (Or.inr (Or.inr (Or.inr (Or.inl ⟨by omega, rfl⟩)))))
  · exact Or.inr (Or.inr (Or.inr (Or.inr (Or.inr (Or.inr (Or.inl ⟨by omega, rfl⟩))))))
  · exact Or.inr (Or.inr (Or.inr (Or.inr (Or.inr (Or.inr (Or.inr (Or.inl ⟨by omega, rfl⟩)))))))
  · exact Or.inr (Or.inr (Or.inr (Or.inr (Or.inr (Or.inr (Or.inr (Or.inr
      (Or.inl ⟨by omega, rfl⟩))))))))
  · exact Or.inr (Or.inr (Or.inr (Or.inr (Or.inr (Or.inr (Or.inr (Or.inr
      (Or.inr ⟨by omega, rfl⟩))))))))

/-- Membership in the list of ladder durations, spelled out. -/
theorem mem_ladderMS (v : Int) : v ∈ ladderMS ↔
    v = 15 ∨ v = 30 ∨ v = 60 ∨ v = 120 ∨ v = 250 ∨ v = 500 ∨ v = 1000 ∨ v = 2000 ∨
      v = 4000 ∨ v = 8000 := by
  simp [ladderMS, ladder]

/-- C1: for every requested duration `r ≥ 0` the `actualMS` chosen by
`_setPeriod` is one of the ten ladder values; it is 8000 when `r = 0` or
`r ≥ 8000`, it is 15 when `0 < r < 15`, and otherwise it is the largest ladder
value that does not exceed `r`. -/
theorem setPeriod_actualMS_spec (r : Int) (h : 0 ≤ r) :
    (_setPeriod r).actualMS ∈ ladderMS ∧
    ((r = 0 ∨ 8000 ≤ r) → (_setPeriod r).actualMS = 8000) ∧
    ((0 < r ∧ r < 15) → (_setPeriod r).actualMS = 15) ∧
    ((15 ≤ r ∧ r < 8000) →
      (_setPeriod r).actualMS ≤ r ∧ ∀ v ∈ ladderMS, v ≤ r → v ≤ (_setPeriod r).actualMS) := by
  have hv : ∀ v ∈ ladderMS, v = 15 ∨ v = 30 ∨ v = 60 ∨ v = 120 ∨ v = 250 ∨ v = 500 ∨
      v = 1000 ∨ v = 2000 ∨ v = 4000 ∨ v = 8000 := fun v hm => (mem_ladderMS v).1 hm
  rcases setPeriod_cases r with h1 | h1 | h1 | h1 | h1 | h1 | h1 | h1 | h1 | h1 <;>
    obtain ⟨hr, he⟩ := h1 <;>
    rw [he] <;>
    dsimp only <;>
    refine ⟨(mem_ladderMS _).2 (by simp), fun _ => by omega, fun _ => by omega,
      fun _ => ⟨by omega, ?_⟩⟩ <;>
    intro v hm hle <;>
    have := hv v hm <;>
    omega

/-- Instance of C1 at the request 300, which lies between the rungs 250 and 500. -/
theorem setPeriod_actualMS_spec_witness :
    (0 : Int) ≤ 300 ∧
    ((_setPeriod 300).actualMS ∈ ladderMS ∧
    (((300 : Int) = 0 ∨ 8000 ≤ (300 : Int)) → (_setPeriod 300).actualMS = 8000) ∧
    ((0 < (300 : Int) ∧ (300 : Int) < 15) → (_setPeriod 300).actualMS = 15) ∧
    ((15 ≤ (300 : Int) ∧ (300 : Int) < 8000) →
      (_setPeriod 300).actualMS ≤ 300 ∧
        ∀ v ∈ ladderMS, v ≤ 300 → v ≤ (_setPeriod 300).actualMS)) :=
  ⟨by decide, setPeriod_actualMS_spec 300 (by decide)⟩

/-- C2 fails as stated: the request 0 selects 8000 ms while the larger request 1
selects 15 ms. -/
theorem setPeriod_monotone_counterexample :
    (0 : Int) ≤ 0 ∧ (0 : Int) ≤ 1 ∧
      ¬ ((_setPeriod 0).actualMS ≤ (_setPeriod 1).actualMS) := by
  decide

/-- C2, amended: for requests `0 ≤ r1 ≤ r2` the selected `actualMS` is monotone
exactly when `r1` is not the special request 0, or `r2` is 0 or at least 8000;
in particular it is monotone on all `0 < r1 ≤ r2`. -/
theorem setPeriod_monotone_iff (r1 r2 : Int) (h0 : 0 ≤ r1) (hle : r1 ≤ r2) :
    (_setPeriod r1).actualMS ≤ (_setPeriod r2).actualMS ↔ (r1 ≠ 0 ∨ r2 = 0 ∨ 8000 ≤ r2) := by
  rcases setPeriod_cases r1 with h1 | h1 | h1 | h1 | h1 | h1 | h1 | h1 | h1 | h1 <;>
    obtain ⟨hr1, he1⟩ := h1 <;>
    rcases setPeriod_cases r2 with h2 | h2 | h2 | h2 | h2 | h2 | h2 | h2 | h2 | h2 <;>
    obtain ⟨hr2, he2⟩ := h2 <;>
    rw [he1, he2] <;>
    dsimp only <;>
    omega

/-- Instance of the amended C2 at the requests 100 and 300. -/
theorem setPeriod_monotone_iff_witness :
    (0 : Int) ≤ 100 ∧ (100 : Int) ≤ 300 ∧
      ((_setPeriod 100).actualMS ≤ (_setPeriod 300).actualMS ↔
        ((100 : Int) ≠ 0 ∨ (300 : Int) = 0 ∨ (8000 : Int) ≤ 300)) :=
  ⟨by decide, by decide, setPeriod_monotone_iff 100 300 (by decide) (by decide)⟩

/-- C8: every ladder entry is a fixed point of the quantizer, selector
included, and one millisecond below a rung above 15 the quantizer selects the
next lower rung: a ladder entry below that rung which no ladder entry below the
rung exceeds. -/
theorem setPeriod_ladder_fixed_point (e : Period) (h : e ∈ ladder) :
    _setPeriod e.actualMS = e ∧
    (15 < e.actualMS →
      _setPeriod (e.actualMS - 1) ∈ ladder ∧
      (_setPeriod (e.actualMS - 1)).actualMS < e.actualMS ∧
      ∀ f ∈ ladder, f.actualMS < e.actualMS →
        f.actualMS ≤ (_setPeriod (e.actualMS - 1)).actualMS) := by
  simp only [ladder, List.mem_cons, List.mem_singleton, List.not_mem_nil, or_false] at h
  rcases h with rfl | rfl | rfl | rfl | rfl | rfl | rfl | rfl | rfl | rfl <;> decide

/-- Instance of C8 at the 250 ms rung: 250 selects itself and 249 selects the
120 ms rung below it. -/
theorem setPeriod_ladder_fixed_point_witness :
    (Period.mk WDTO_250MS 250) ∈ ladder ∧
    (_setPeriod (Period.mk WDTO_250MS 250).actualMS = Period.mk WDTO_250MS 250 ∧
    (15 < (Period.mk WDTO_250MS 250).actualMS →
      _setPeriod ((Period.mk WDTO_250MS 250).actualMS - 1) ∈ ladder ∧
      (_setPeriod ((Period.mk WDTO_250MS 250).actualMS - 1)).actualMS <
        (Period.mk WDTO_250MS 250).actualMS ∧
      ∀ f ∈ ladder, f.actualMS < (Period.mk WDTO_250MS 250).actualMS →
        f.actualMS ≤ (_setPeriod ((Period.mk WDTO_250MS 250).actualMS - 1)).actualMS)) :=
  ⟨by decide, setPeriod_ladder_fixed_point (Period.mk WDTO_250MS 250) (by decide)⟩

/-! ## The driver operations -/

/-- The selector chosen by `_setPeriod` is one of the ten avr-libc constants. -/
theorem setPeriod_wdto_range (r : Int) :
    0 ≤ (_setPeriod r).wdto ∧ (_setPeriod r).wdto ≤ 9 := by
  rcases setPeriod_cases r with h | h | h | h | h | h | h | h | h | h <;>
    rw [h.2] <;> decide

/-- Control register contents left by `wdt_enable`. -/
theorem exec_wdt_enable_WDTCR (w : Int) (hw : Hw) :
    ((HwOp.wdt_enable w).exec hw).WDTCR =
      (if toUint8 w &&& 0x08 ≠ 0 then 1 <<< WDP3 else 0) ||| (1 <<< WDE) ||| (toUint8 w &&& 0x07) :=
  rfl

/-- After `wdt_enable` with a selector in `0..9` the watchdog is in system-reset
mode and the prescaler bits hold that selector. -/
theorem exec_wdt_enable_armed (w : Int) (hw : Hw) (h0 : 0 ≤ w) (h9 : w ≤ 9) :
    ((HwOp.wdt_enable w).exec hw).mode = .systemReset ∧
    (((HwOp.wdt_enable w).exec hw).prescaler : Int) = w := by
  have hc : w = 0 ∨ w = 1 ∨ w = 2 ∨ w = 3 ∨ w = 4 ∨ w = 5 ∨ w = 6 ∨ w = 7 ∨ w = 8 ∨ w = 9 := by
    omega
  rcases hc with rfl | rfl | rfl | rfl | rfl | rfl | rfl | rfl | rfl | rfl <;>
    unfold Hw.mode Hw.prescaler <;>
    rw [exec_wdt_enable_WDTCR] <;>
    decide

/-- C4: `enable r` returns the `actualMS` selected by `_setPeriod r`, records
the selected selector in `_wdto`, and issues exactly one hardware primitive,
`wdt_enable` with that selector, which leaves the peripheral in system-reset
mode at that selector.  In particular `enable 0` returns 8000 with the 8 s
selector recorded, and `enable 300` returns 250. -/
theorem enable_spec (r : Int) (s : WatchdogAVR) :
    (s.enable r).1 = (_setPeriod r).actualMS ∧
    (s.enable r).2._wdto = (_setPeriod r).wdto ∧
    (s.enable r).2.trace = s.trace ++ [HwOp.wdt_enable (_setPeriod r).wdto] ∧
    (s.enable r).2.hw = (HwOp.wdt_enable (_setPeriod r).wdto).exec s.hw ∧
    (s.enable r).2.hw.mode = .systemReset ∧
    ((s.enable r).2.hw.prescaler : Int) = (_setPeriod r).wdto ∧
    ((s.enable 0).1 = 8000 ∧ (s.enable 0).2._wdto = WDTO_8S) ∧
    (s.enable 300).1 = 250 := by
  obtain ⟨h0, h9⟩ := setPeriod_wdto_range r
  obtain ⟨hm, hp⟩ := exec_wdt_enable_armed (_setPeriod r).wdto s.hw h0 h9
  have e0 : _setPeriod 0 = ⟨WDTO_8S, 8000⟩ := by decide
  have e300 : (_setPeriod 300).actualMS = 250 := by decide
  exact ⟨rfl, rfl, rfl, rfl, hm, hp, ⟨congrArg Period.actualMS e0, congrArg Period.wdto e0⟩, e300⟩

/-- C5: `sleep r` returns exactly the `actualMS` selected by `_setPeriod r`, from
every prior driver state and on both platform variants, so the return value
does not depend on the prior state; `sleep 50` returns 30. -/
theorem sleep_returns_actualMS (platform : Platform) (r : Int) (s : WatchdogAVR) :
    (s.sleep platform r).1 = (_setPeriod r).actualMS ∧
    (∀ t : WatchdogAVR, (t.sleep platform r).1 = (s.sleep platform r).1) ∧
    (s.sleep platform 50).1 = 30 :=
  have e50 : (_setPeriod 50).actualMS = 30 := by decide
  ⟨rfl, fun _ => rfl, e50⟩

/-- C6 fails as stated: for the nonzero request 10 both `sleep` and `enable`
return 15, which exceeds the request. -/
theorem actualMS_le_request_counterexample :
    (0 : Int) < 10 ∧
    ¬ (((init 0 true).sleep .generic 10).1 ≤ 10) ∧
    ¬ (((init 0 true).enable 10).1 ≤ 10) ∧
    ¬ ((_setPeriod 10).actualMS ≤ 10) := by
  decide

/-- C6, amended: for every requested bound `r ≥ 15` the duration selected by
`_setPeriod r`, which `sleep r` and `enable r` return, does not exceed `r`. -/
theorem actualMS_le_request (platform : Platform) (r : Int) (s : WatchdogAVR) (h : 15 ≤ r) :
    (_setPeriod r).actualMS ≤ r ∧ (s.sleep platform r).1 ≤ r ∧ (s.enable r).1 ≤ r := by
  have hk : (_setPeriod r).actualMS ≤ r := by
    rcases setPeriod_cases r with h1 | h1 | h1 | h1 | h1 | h1 | h1 | h1 | h1 | h1 <;>
      obtain ⟨hr, he⟩ := h1 <;>
      rw [he] <;>
      dsimp only <;>
      omega
  exact ⟨hk, hk, hk⟩

/-- Instance of the amended C6 at the request 300 on the generic platform. -/
theorem actualMS_le_request_witness :
    (15 : Int) ≤ 300 ∧
    ((_setPeriod 300).actualMS ≤ 300 ∧ ((init 0 true).sleep .generic 300).1 ≤ 300 ∧
      ((init 0 true).enable 300).1 ≤ 300) :=
  ⟨by decide, actualMS_le_request .generic 300 (init 0 true) (by decide)⟩

/-- Issuing a hardware primitive leaves `_wdto` alone. -/
theorem issue_wdto (op : HwOp) (s : WatchdogAVR) : (s.issue op)._wdto = s._wdto := rfl

/-- The register reconfiguration `setup` leaves `_wdto` alone. -/
theorem setup_wdto (wdps : Nat) (s : WatchdogAVR) : (s.setup wdps)._wdto = s._wdto := rfl

/-- Entering and leaving power-down sleep leaves `_wdto` alone. -/
theorem sleepPreset_wdto (s : WatchdogAVR) : s.sleepPreset._wdto = s._wdto := rfl

/-- With the watchdog enabled beforehand, `sleep` ends by issuing `wdt_enable`
with the recorded selector. -/
theorem sleep_of_enabled (platform : Platform) (r : Int) (s : WatchdogAVR) (h : s._wdto ≠ -1) :
    (s.sleep platform r).2 =
      ((s.setup (convertWDTOtoWDPS platform (_setPeriod r).wdto)).sleepPreset).issue
        (.wdt_enable s._wdto) := by
  unfold sleep
  simp only [sleepPreset_wdto, setup_wdto]
  rw [if_pos h]

/-- With the watchdog disabled beforehand, `sleep` stops after waking: nothing
is issued after `sleep_disable`. -/
theorem sleep_of_disabled (platform : Platform) (r : Int) (s : WatchdogAVR) (h : s._wdto = -1) :
    (s.sleep platform r).2 =
      (s.setup (convertWDTOtoWDPS platform (_setPeriod r).wdto)).sleepPreset := by
  unfold sleep
  simp only [sleepPreset_wdto, setup_wdto]
  rw [if_neg (not_not.mpr h)]

/-- The call `sleep` never changes `_wdto`. -/
theorem sleep_wdto (platform : Platform) (r : Int) (s : WatchdogAVR) :
    (s.sleep platform r).2._wdto = s._wdto := by
  by_cases h : s._wdto = -1
  · rw [sleep_of_disabled platform r s h]; rfl
  · rw [sleep_of_enabled platform r s h]; rfl

/-- C3: after `enable a` followed by `sleep b`, on either platform and from any
prior state, `_wdto` still holds the selector chosen for `a`, the last hardware
primitive issued is `wdt_enable` with that selector, the peripheral is in
system-reset mode with that selector in its prescaler bits, and `sleep` returned
the `actualMS` chosen for `b`.  For `enable 1000` then `sleep 10000` the 1 s
selector stays armed and `sleep` returns 8000. -/
theorem enable_sleep_restores (platform : Platform) (a b : Int) (s : WatchdogAVR) :
    ((s.enable a).2.sleep platform b).2._wdto = (_setPeriod a).wdto ∧
    ((s.enable a).2.sleep platform b).2.trace.getLast? =
      some (HwOp.wdt_enable (_setPeriod a).wdto) ∧
    ((s.enable a).2.sleep platform b).2.hw.mode = .systemReset ∧
    (((s.enable a).2.sleep platform b).2.hw.prescaler : Int) = (_setPeriod a).wdto ∧
    ((s.enable a).2.sleep platform b).1 = (_setPeriod b).actualMS ∧
    (((s.enable 1000).2.sleep platform 10000).2._wdto = WDTO_1S ∧
      ((s.enable 1000).2.sleep platform 10000).2.hw.mode = .systemReset ∧
      ((s.enable 1000).2.sleep platform 10000).2.hw.prescaler = 6 ∧
      ((s.enable 1000).2.sleep platform 10000).1 = 8000) := by
  have key : ∀ a b : Int,
      ((s.enable a).2.sleep platform b).2._wdto = (_setPeriod a).wdto ∧
      ((s.enable a).2.sleep platform b).2.trace.getLast? =
        some (HwOp.wdt_enable (_setPeriod a).wdto) ∧
      ((s.enable a).2.sleep platform b).2.hw.mode = .systemReset ∧
      (((s.enable a).2.sleep platform b).2.hw.prescaler : Int) = (_setPeriod a).wdto ∧
      ((s.enable a).2.sleep platform b).1 = (_setPeriod b).actualMS := by
    intro a b
    obtain ⟨h0, h9⟩ := setPeriod_wdto_range a
    have hw : (s.enable a).2._wdto = (_setPeriod a).wdto := rfl
    have hne : (s.enable a).2._wdto ≠ -1 := by rw [hw]; omega
    have hs := sleep_of_enabled platform b (s.enable a).2 hne
    rw [hw] at hs
    obtain ⟨hm, hp⟩ := exec_wdt_enable_armed (_setPeriod a).wdto
      ((s.enable a).2.setup (convertWDTOtoWDPS platform (_setPeriod b).wdto)).sleepPreset.hw h0 h9
    refine ⟨?_, ?_, ?_, ?_, rfl⟩
    · rw [hs]; rfl
    · rw [hs]; simp [issue]
    · rw [hs]; exact hm
    · rw [hs]; exact hp
  have e1 : (_setPeriod 1000).wdto = WDTO_1S := by decide
  have e2 : (_setPeriod 10000).actualMS = 8000 := by decide
  obtain ⟨k1, _, k3, k4, k5⟩ := key 1000 10000
  refine ⟨(key a b).1, (key a b).2.1, (key a b).2.2.1, (key a b).2.2.2.1, (key a b).2.2.2.2,
    k1.trans e1, k3, ?_, k5.trans e2⟩
  have e6 : WDTO_1S = ((6 : Nat) : Int) := rfl
  rw [e1, e6] at k4
  exact Int.ofNat.inj k4

/-! ## Histories of calls -/

/-- Running a history extended by one call is that call after the history. -/
theorem run_append_singleton (platform : Platform) (calls : List Call) (c : Call)
    (s : WatchdogAVR) :
    run platform (calls ++ [c]) s = call platform c (run platform calls s) := by
  simp [run, List.foldl_append]

/-- The expected WatchdogState after one more call. -/
theorem expectedWdto_append_singleton (calls : List Call) (c : Call) :
    expectedWdto (calls ++ [c]) =
      match c with
      | .enable maxPeriodMS => (_setPeriod maxPeriodMS).wdto
      | .disable => -1
      | .reset => expectedWdto calls
      | .sleep _ => expectedWdto calls := by
  cases c <;> simp [expectedWdto, List.find?, Call.isArming]

/-- C7: from the initial state, after every finite sequence of `enable`, `reset`,
`disable` and `sleep` calls, `_wdto` is the selector chosen by the most recent
`enable` call if no `disable` call came after it and the sentinel `-1`
otherwise; `sleep` and `reset` never change `_wdto`. -/
theorem wdto_history (platform : Platform) (calls : List Call) (mcusr : Nat) (i : Bool) :
    (run platform calls (init mcusr i))._wdto = expectedWdto calls ∧
    (∀ (s : WatchdogAVR) (r : Int), (s.sleep platform r).2._wdto = s._wdto) ∧
    (∀ s : WatchdogAVR, s.reset._wdto = s._wdto) := by
  refine ⟨?_, fun s r => sleep_wdto platform r s, fun _ => rfl⟩
  induction calls using List.reverseRecOn with
  | nil => rfl
  | append_singleton cs c ih =>
    rw [run_append_singleton, expectedWdto_append_singleton]
    cases c with
    | enable r => rfl
    | reset => exact ih
    | disable => rfl
    | sleep r => exact (sleep_wdto platform r _).trans ih

/-- C9: `disable` is idempotent on every driver state: a second `disable` leaves
`_wdto` and the registers as the first one left them, with `_wdto` at the
sentinel `-1` and the peripheral stopped (control register cleared). -/
theorem disable_idempotent (s : WatchdogAVR) :
    s.disable.disable.state = s.disable.state ∧
    s.disable._wdto = -1 ∧
    s.disable.hw.mode = .stopped ∧
    s.disable.hw.WDTCR = 0 := by
  have hc : s.disable.hw.WDTCR = 0 := rfl
  refine ⟨rfl, rfl, ?_, hc⟩
  unfold Hw.mode
  rw [hc]
  decide

/-- C10 fails as stated: after `sleep 1000` from the initial state `_wdto` is
still the sentinel, yet `disable` changes the driver state, taking the
peripheral from interrupt mode to stopped. -/
theorem disable_noop_counterexample :
    (run .generic [.sleep 1000] (init 0 true))._wdto = -1 ∧
    (run .generic [.sleep 1000] (init 0 true)).disable.state ≠
      (run .generic [.sleep 1000] (init 0 true)).state ∧
    (run .generic [.sleep 1000] (init 0 true)).hw.mode = .interrupt ∧
    (run .generic [.sleep 1000] (init 0 true)).disable.hw.mode = .stopped := by
  decide

/-- A state with the sentinel in `_wdto` and a cleared control register is
unchanged by `disable`. -/
theorem disable_state_of_stopped (s : WatchdogAVR) (hw : s._wdto = -1) (hc : s.hw.WDTCR = 0) :
    s.disable.state = s.state := by
  obtain ⟨w, ⟨c, m, i⟩, t⟩ := s
  simp only at hw hc
  subst hw hc
  rfl

/-- Along a history the flag computed by `disarmedHistory` implies the sentinel
in `_wdto` and a cleared control register. -/
theorem disarmed_invariant (platform : Platform) (calls : List Call) :
    ∀ (quiet : Bool) (s : WatchdogAVR),
      (quiet = true → s._wdto = -1 ∧ s.hw.WDTCR = 0) →
      calls.foldl (fun quiet c =>
        match c with
        | .enable _ => false
        | .reset => quiet
        | .disable => true
        | .sleep _ => false) quiet = true →
      (run platform calls s)._wdto = -1 ∧ (run platform calls s).hw.WDTCR = 0 := by
  induction calls with
  | nil => intro quiet s hq h; exact hq h
  | cons c cs ih =>
    intro quiet s hq h
    rw [List.foldl_cons] at h
    have hrun : run platform (c :: cs) s = run platform cs (call platform c s) := rfl
    rw [hrun]
    refine ih _ (call platform c s) ?_ h
    cases c with
    | enable r => intro hf; cases hf
    | reset => intro hf; exact hq hf
    | disable => intro _; exact ⟨rfl, rfl⟩
    | sleep r => intro hf; cases hf

/-- C10, amended: in every state reached from the initial state by a history in
which no `enable` or `sleep` call follows the most recent `disable` call (or
occurs at all when `disable` was never called), which includes the
never-enabled initial state, `_wdto` is the sentinel and `disable` leaves the
whole driver state, `_wdto` and the peripheral registers, unchanged. -/
theorem disable_noop_of_disarmed (platform : Platform) (calls : List Call) (mcusr : Nat)
    (i : Bool) (h : disarmedHistory calls = true) :
    (run platform calls (init mcusr i))._wdto = -1 ∧
    (run platform calls (init mcusr i)).disable.state = (run platform calls (init mcusr i)).state ∧
    (init mcusr i).disable.state = (init mcusr i).state := by
  obtain ⟨hw, hc⟩ :=
    disarmed_invariant platform calls true (init mcusr i) (fun _ => ⟨rfl, rfl⟩) h
  exact ⟨hw, disable_state_of_stopped _ hw hc, rfl⟩

/-- Instance of the amended C10: enable, sleep, disable, then acknowledge. -/
theorem disable_noop_of_disarmed_witness :
    disarmedHistory [.enable 500, .sleep 100, .disable, .reset] = true ∧
    ((run .generic [.enable 500, .sleep 100, .disable, .reset] (init 0 true))._wdto = -1 ∧
    (run .generic [.enable 500, .sleep 100, .disable, .reset] (init 0 true)).disable.state =
      (run .generic [.enable 500, .sleep 100, .disable, .reset] (init 0 true)).state ∧
    (init 0 true).disable.state = (init 0 true).state) :=
  ⟨by decide, disable_noop_of_disarmed .generic [.enable 500, .sleep 100, .disable, .reset] 0 true
    (by decide)⟩

/-! ## The register reconfiguration `setup` -/

/-- C11: the hardware primitives issued by `setup wdps` are, in this order and
with nothing else: `cli`, clear `WDRF` in `MCUSR`, set `WDCE` and `WDE` in the
control register, overwrite the control register with `wdps`, set `WDIE`, `sei`.
Run from any registers, whatever the interrupt flag was, every register write of
this sequence happens with global interrupts disabled. -/
theorem setup_critical_section (wdps : Nat) (s : WatchdogAVR) :
    (s.setup wdps).trace = s.trace ++
      [HwOp.cli, HwOp.MCUSR_and (0xFF ^^^ (1 <<< WDRF)),
       HwOp.WDTCR_or ((1 <<< WDCE) ||| (1 <<< WDE)), HwOp.WDTCR_assign wdps,
       HwOp.WDTCR_or (1 <<< WDIE), HwOp.sei] ∧
    (∀ hw : Hw, writesMasked
      [HwOp.cli, HwOp.MCUSR_and (0xFF ^^^ (1 <<< WDRF)),
       HwOp.WDTCR_or ((1 <<< WDCE) ||| (1 <<< WDE)), HwOp.WDTCR_assign wdps,
       HwOp.WDTCR_or (1 <<< WDIE), HwOp.sei] hw = true) ∧
    (s.setup wdps).hw.I = true := by
  refine ⟨?_, fun hw => rfl, rfl⟩
  simp [setup, issue]

/-- C12: for every request the selector and the duration chosen by `_setPeriod`
are paired as in the ladder: the selector lies in `0..9`, `actualMS` is the
ladder value at the position the selector names, and the ladder pairs the
avr-libc constants 0 to 9 with 15, 30, 60, 120, 250, 500, 1000, 2000, 4000 and
8000 ms. -/
theorem setPeriod_pairing (r : Int) :
    _setPeriod r ∈ ladder ∧
    (0 ≤ (_setPeriod r).wdto ∧ (_setPeriod r).wdto ≤ 9) ∧
    ladderMS[(_setPeriod r).wdto.toNat]? = some (_setPeriod r).actualMS ∧
    ladder.map Period.wdto = [0, 1, 2, 3, 4, 5, 6, 7, 8, 9] ∧
    ladderMS = [15, 30, 60, 120, 250, 500, 1000, 2000, 4000, 8000] := by
  refine ⟨setPeriod_mem_ladder r, setPeriod_wdto_range r, ?_, by decide, by decide⟩
  rcases setPeriod_cases r with h | h | h | h | h | h | h | h | h | h <;>
    rw [h.2] <;> decide

/-- Control register contents left by `setup`: the value written, then `WDIE`. -/
theorem setup_WDTCR (wdps : Nat) (s : WatchdogAVR) :
    (s.setup wdps).hw.WDTCR = ((wdps % 256) ||| (1 <<< WDIE)) % 256 :=
  rfl

/-- The `MCUSR` contents left by `setup`: the old contents under the mask. -/
theorem setup_MCUSR (wdps : Nat) (s : WatchdogAVR) :
    (s.setup wdps).hw.MCUSR = s.hw.MCUSR &&& (0xFF ^^^ (1 <<< WDRF)) :=
  rfl

/-- Bits of the mask written to `MCUSR`: all of the low eight except `WDRF`. -/
theorem mcusr_mask_testBit (i : Fin 8) :
    (0xFF ^^^ (1 <<< WDRF)).testBit i.val = decide (i.val ≠ WDRF) := by
  revert i
  decide

/-- C13: on the generic platform, for every selector in `0..9` and whatever the
registers held before, `setup (convertWDTOtoWDPS selector)` leaves the control
register equal to the prescaler bits of the selector together with `WDIE`, so
`WDIE` is set, `WDE` is clear and the watchdog is in interrupt mode; in `MCUSR`
the bit `WDRF` is cleared and the other seven bits are unchanged. -/
theorem setup_interrupt_only (selector : Int) (s : WatchdogAVR)
    (h0 : 0 ≤ selector) (h9 : selector ≤ 9) :
    (s.setup (convertWDTOtoWDPS .generic selector)).hw.WDTCR =
      prescalerBits selector.toNat ||| (1 <<< WDIE) ∧
    (s.setup (convertWDTOtoWDPS .generic selector)).hw.WDTCR.testBit WDIE = true ∧
    (s.setup (convertWDTOtoWDPS .generic selector)).hw.WDTCR.testBit WDE = false ∧
    (s.setup (convertWDTOtoWDPS .generic selector)).hw.mode = .interrupt ∧
    (s.setup (convertWDTOtoWDPS .generic selector)).hw.MCUSR.testBit WDRF = false ∧
    (∀ i : Fin 8, i.val ≠ WDRF →
      (s.setup (convertWDTOtoWDPS .generic selector)).hw.MCUSR.testBit i.val =
        s.hw.MCUSR.testBit i.val) := by
  have hm : (s.setup (convertWDTOtoWDPS .generic selector)).hw.MCUSR.testBit WDRF = false := by
    rw [setup_MCUSR, Nat.testBit_and]
    have : (0xFF ^^^ (1 <<< WDRF)).testBit WDRF = false := by decide
    rw [this, Bool.and_false]
  have ho : ∀ i : Fin 8, i.val ≠ WDRF →
      (s.setup (convertWDTOtoWDPS .generic selector)).hw.MCUSR.testBit i.val =
        s.hw.MCUSR.testBit i.val := by
    intro i hi
    rw [setup_MCUSR, Nat.testBit_and, mcusr_mask_testBit i, decide_eq_true hi, Bool.and_true]
  have hc : selector = 0 ∨ selector = 1 ∨ selector = 2 ∨ selector = 3 ∨ selector = 4 ∨
      selector = 5 ∨ selector = 6 ∨ selector = 7 ∨ selector = 8 ∨ selector = 9 := by
    omega
  refine ⟨?_, ?_, ?_, ?_, hm, ho⟩ <;>
    rcases hc with rfl | rfl | rfl | rfl | rfl | rfl | rfl | rfl | rfl | rfl <;>
    (try unfold Hw.mode) <;>
    rw [setup_WDTCR] <;>
    decide

/-- Instance of C13 at the 1 s selector, from a start-up state with `WDRF` set. -/
theorem setup_interrupt_only_witness :
    (0 : Int) ≤ 6 ∧ (6 : Int) ≤ 9 ∧
    (((init 0x0F true).setup (convertWDTOtoWDPS .generic 6)).hw.WDTCR =
      prescalerBits (6 : Int).toNat ||| (1 <<< WDIE) ∧
    ((init 0x0F true).setup (convertWDTOtoWDPS .generic 6)).hw.WDTCR.testBit WDIE = true ∧
    ((init 0x0F true).setup (convertWDTOtoWDPS .generic 6)).hw.WDTCR.testBit WDE = false ∧
    ((init 0x0F true).setup (convertWDTOtoWDPS .generic 6)).hw.mode = .interrupt ∧
    ((init 0x0F true).setup (convertWDTOtoWDPS .generic 6)).hw.MCUSR.testBit WDRF = false ∧
    (∀ i : Fin 8, i.val ≠ WDRF →
      ((init 0x0F true).setup (convertWDTOtoWDPS .generic 6)).hw.MCUSR.testBit i.val =
        (init 0x0F true).hw.MCUSR.testBit i.val)) :=
  ⟨by decide, by decide, setup_interrupt_only 6 (init 0x0F true) (by decide) (by decide)⟩

/-! ## The prescaler encoding `convertWDTOtoWDPS` -/

/-- C14: on the generic platform, for every selector in `0..9`,
`convertWDTOtoWDPS` puts bits 0, 1, 2 of the selector at `WDP0`, `WDP1`, `WDP2`
and bit 3 at `WDP3`, sets no other bit of the byte (so `WDE`, `WDCE` and `WDIE`
stay clear), and the selector can be read back from the prescaler bits; hence
the encoding is injective on `0..9`. -/
theorem convertWDTOtoWDPS_generic_encoding :
    (∀ s : Fin 10,
      convertWDTOtoWDPS .generic (s.val : Int) = prescalerBits s.val ∧
      (convertWDTOtoWDPS .generic (s.val : Int)).testBit WDP0 = s.val.testBit 0 ∧
      (convertWDTOtoWDPS .generic (s.val : Int)).testBit WDP1 = s.val.testBit 1 ∧
      (convertWDTOtoWDPS .generic (s.val : Int)).testBit WDP2 = s.val.testBit 2 ∧
      (convertWDTOtoWDPS .generic (s.val : Int)).testBit WDP3 = s.val.testBit 3 ∧
      convertWDTOtoWDPS .generic (s.val : Int) < 256 ∧
      (∀ i : Fin 8, i.val ≠ WDP0 → i.val ≠ WDP1 → i.val ≠ WDP2 → i.val ≠ WDP3 →
        (convertWDTOtoWDPS .generic (s.val : Int)).testBit i.val = false) ∧
      (convertWDTOtoWDPS .generic (s.val : Int)).testBit WDE = false ∧
      (convertWDTOtoWDPS .generic (s.val : Int)).testBit WDCE = false ∧
      (convertWDTOtoWDPS .generic (s.val : Int)).testBit WDIE = false ∧
      Hw.prescaler
        { WDTCR := convertWDTOtoWDPS .generic (s.val : Int), MCUSR := 0, I := false } = s.val) ∧
    (∀ s t : Fin 10,
      convertWDTOtoWDPS .generic (s.val : Int) = convertWDTOtoWDPS .generic (t.val : Int) →
        s = t) := by
  decide

/-- C15: for every selector in `0..15` the ATtiny85 variant of
`convertWDTOtoWDPS` yields the result of the generic variant with `WDCE` set in
addition, and the two results have the same prescaler bits `WDP3..WDP0`. -/
theorem convertWDTOtoWDPS_variants_agree :
    ∀ s : Fin 16,
      convertWDTOtoWDPS .attiny85 (s.val : Int) =
        convertWDTOtoWDPS .generic (s.val : Int) ||| (1 <<< WDCE) ∧
      (convertWDTOtoWDPS .attiny85 (s.val : Int)).testBit WDP0 =
        (convertWDTOtoWDPS .generic (s.val : Int)).testBit WDP0 ∧
      (convertWDTOtoWDPS .attiny85 (s.val : Int)).testBit WDP1 =
        (convertWDTOtoWDPS .generic (s.val : Int)).testBit WDP1 ∧
      (convertWDTOtoWDPS .attiny85 (s.val : Int)).testBit WDP2 =
        (convertWDTOtoWDPS .generic (s.val : Int)).testBit WDP2 ∧
      (convertWDTOtoWDPS .attiny85 (s.val : Int)).testBit WDP3 =
        (convertWDTOtoWDPS .generic (s.val : Int)).testBit WDP3 := by
  decide

/-! ## Sleeping, and the selectors handed to `wdt_enable` -/

/-- The primitives issued by `setup` followed by `sleepPreset`. -/
theorem setup_sleepPreset_trace (wdps : Nat) (s : WatchdogAVR) :
    (s.setup wdps).sleepPreset.trace = s.trace ++
      [HwOp.cli, HwOp.MCUSR_and (0xFF ^^^ (1 <<< WDRF)),
       HwOp.WDTCR_or ((1 <<< WDCE) ||| (1 <<< WDE)), HwOp.WDTCR_assign wdps,
       HwOp.WDTCR_or (1 <<< WDIE), HwOp.sei,
       HwOp.set_sleep_mode_PWR_DOWN, HwOp.sleep_mode, HwOp.sleep_disable] := by
  simp [setup, sleepPreset, issue]

/-- One public call preserves: `_wdto` is the sentinel or a selector in `0..9`,
and every `wdt_enable` in the history of primitives carries a selector in
`0..9`. -/
theorem call_preserves_valid (platform : Platform) (c : Call) (s : WatchdogAVR)
    (hw : s._wdto = -1 ∨ (0 ≤ s._wdto ∧ s._wdto ≤ 9))
    (ht : ∀ v : Int, HwOp.wdt_enable v ∈ s.trace → 0 ≤ v ∧ v ≤ 9) :
    ((call platform c s)._wdto = -1 ∨
      (0 ≤ (call platform c s)._wdto ∧ (call platform c s)._wdto ≤ 9)) ∧
    (∀ v : Int, HwOp.wdt_enable v ∈ (call platform c s).trace → 0 ≤ v ∧ v ≤ 9) := by
  cases c with
  | enable r =>
    refine ⟨Or.inr (setPeriod_wdto_range r), ?_⟩
    intro v hv
    have htr : (call platform (.enable r) s).trace =
        s.trace ++ [HwOp.wdt_enable (_setPeriod r).wdto] := rfl
    rw [htr, List.mem_append, List.mem_singleton] at hv
    rcases hv with hv | hv
    · exact ht v hv
    · cases hv
      exact setPeriod_wdto_range r
  | reset =>
    refine ⟨hw, ?_⟩
    intro v hv
    have htr : (call platform .reset s).trace = s.trace ++ [HwOp.wdt_reset] := rfl
    rw [htr, List.mem_append, List.mem_singleton] at hv
    rcases hv with hv | hv
    · exact ht v hv
    · cases hv
  | disable =>
    refine ⟨Or.inl rfl, ?_⟩
    intro v hv
    have htr : (call platform .disable s).trace = s.trace ++ [HwOp.wdt_disable] := rfl
    rw [htr, List.mem_append, List.mem_singleton] at hv
    rcases hv with hv | hv
    · exact ht v hv
    · cases hv
  | sleep r =>
    have hcall : call platform (.sleep r) s = (s.sleep platform r).2 := rfl
    rw [hcall]
    refine ⟨by rw [sleep_wdto]; exact hw, ?_⟩
    intro v hv
    by_cases hd : s._wdto = -1
    · rw [sleep_of_disabled platform r s hd, setup_sleepPreset_trace, List.mem_append] at hv
      rcases hv with hv | hv
      · exact ht v hv
      · simp at hv
    · have htr : (((s.setup (convertWDTOtoWDPS platform (_setPeriod r).wdto)).sleepPreset).issue
          (.wdt_enable s._wdto)).trace =
          (s.setup (convertWDTOtoWDPS platform (_setPeriod r).wdto)).sleepPreset.trace ++
            [HwOp.wdt_enable s._wdto] := rfl
      rw [sleep_of_enabled platform r s hd, htr, setup_sleepPreset_trace, List.mem_append,
        List.mem_append, List.mem_singleton] at hv
      rcases hv with (hv | hv) | hv
      · exact ht v hv
      · simp at hv
      · cases hv
        rcases hw with hw | hw
        · exact absurd hw hd
        · exact hw

/-- A history of calls preserves the validity of `_wdto` and of the selectors
handed to `wdt_enable`. -/
theorem run_preserves_valid (platform : Platform) (calls : List Call) :
    ∀ s : WatchdogAVR,
      (s._wdto = -1 ∨ (0 ≤ s._wdto ∧ s._wdto ≤ 9)) →
      (∀ v : Int, HwOp.wdt_enable v ∈ s.trace → 0 ≤ v ∧ v ≤ 9) →
      ((run platform calls s)._wdto = -1 ∨
        (0 ≤ (run platform calls s)._wdto ∧ (run platform calls s)._wdto ≤ 9)) ∧
      (∀ v : Int, HwOp.wdt_enable v ∈ (run platform calls s).trace → 0 ≤ v ∧ v ≤ 9) := by
  induction calls with
  | nil => intro s hw ht; exact ⟨hw, ht⟩
  | cons c cs ih =>
    intro s hw ht
    have hrun : run platform (c :: cs) s = run platform cs (call platform c s) := rfl
    rw [hrun]
    obtain ⟨hw1, ht1⟩ := call_preserves_valid platform c s hw ht
    exact ih (call platform c s) hw1 ht1

/-- C17: in every state reached from the initial state by `enable`, `reset`,
`disable` and `sleep` calls with arbitrary arguments, `_wdto` is `-1` or a
selector in `0..9`, and every `wdt_enable` issued along the way, by `enable` or
by `sleep`, received a selector in `0..9`, never the sentinel. -/
theorem wdt_enable_selector_valid (platform : Platform) (calls : List Call) (mcusr : Nat)
    (i : Bool) :
    ((run platform calls (init mcusr i))._wdto = -1 ∨
      (0 ≤ (run platform calls (init mcusr i))._wdto ∧
        (run platform calls (init mcusr i))._wdto ≤ 9)) ∧
    (∀ v : Int, HwOp.wdt_enable v ∈ (run platform calls (init mcusr i)).trace →
      0 ≤ v ∧ v ≤ 9) ∧
    HwOp.wdt_enable (-1) ∉ (run platform calls (init mcusr i)).trace := by
  obtain ⟨hw, ht⟩ := run_preserves_valid platform calls (init mcusr i) (Or.inl rfl)
    (fun v hv => by cases hv)
  refine ⟨hw, ht, ?_⟩
  intro hv
  have := ht (-1) hv
  omega

/-- C18: every negative request selects `WDTO_15MS` with `actualMS = 15`, so
`enable` and `sleep` return 15, whereas the request 0 selects `WDTO_8S` with
`actualMS = 8000`; on every input the two outputs are assigned, together
forming one of the ladder entries. -/
theorem setPeriod_negative (platform : Platform) (maxMS : Int) (s : WatchdogAVR)
    (h : maxMS < 0) :
    _setPeriod maxMS = ⟨WDTO_15MS, 15⟩ ∧
    (s.enable maxMS).1 = 15 ∧
    (s.sleep platform maxMS).1 = 15 ∧
    _setPeriod 0 = ⟨WDTO_8S, 8000⟩ ∧
    (∀ r : Int, _setPeriod r ∈ ladder) := by
  have hk : _setPeriod maxMS = ⟨WDTO_15MS, 15⟩ := by
    rcases setPeriod_cases maxMS with e | e | e | e | e | e | e | e | e | e
    · omega
    · omega
    · omega
    · omega
    · omega
    · omega
    · omega
    · omega
    · omega
    · exact e.2
  have hk2 : (_setPeriod maxMS).actualMS = 15 := by rw [hk]
  exact ⟨hk, hk2, hk2, by decide, setPeriod_mem_ladder⟩

/-- Instance of C18 at the request -5 on the generic platform. -/
theorem setPeriod_negative_witness :
    (-5 : Int) < 0 ∧
    (_setPeriod (-5) = ⟨WDTO_15MS, 15⟩ ∧
    ((init 0 true).enable (-5)).1 = 15 ∧
    ((init 0 true).sleep .generic (-5)).1 = 15 ∧
    _setPeriod 0 = ⟨WDTO_8S, 8000⟩ ∧
    (∀ r : Int, _setPeriod r ∈ ladder)) :=
  ⟨by decide, setPeriod_negative .generic (-5) (init 0 true) (by decide)⟩
